import Mathlib

/-!
Verification of the Proxy Control Core of the porter repository.

The definitions below are a shallow embedding of the code in
src/proxy/src/manager.rs (ProxyManager), src/proxy/src/proxy.rs (Proxy) and
src/proxy/src/types.rs (Request/Response).  Ports are i32 values, modelled as
Int; std HashMap of i32 keys is modelled as an association list with the
insert/remove/contains_key operations used by the code; fallible results use
Except; a panic of an unwrap call is modelled explicitly as an outcome.
-/

namespace Porter

/-- Error type of the proxy crate: Box of dyn Error, carried as a message string. -/
abbrev PError : Type := String

/-- Response = Result of unit against the boxed error (src/proxy/src/types.rs). -/
abbrev Response : Type := Except PError Unit

/-- ProxyManager constant REQUEST_ERROR (message of the unwrap panic on a failed queue send). -/
def REQUEST_ERROR : PError := "proxy manager request cannot be sent, program is likely broken"

/-- ProxyManager constant PROXY_NOT_READY. -/
def PROXY_NOT_READY : PError := "proxy not ready"

/-- ProxyManager constant PROXY_ALREADY_STARTED (the PortInUse error). -/
def PROXY_ALREADY_STARTED : PError := "proxy already started"

/-- ProxyManager constant MANAGER_TERMINATING (the Terminating error). -/
def MANAGER_TERMINATING : PError := "proxy manager is terminating"

/-- ProxyManager constant REQUEST_TIMEOUT, in milliseconds. -/
def REQUEST_TIMEOUT_MS : Nat := 5000

/-- Message of the tokio oneshot TryRecvError.Empty value. -/
def TRY_RECV_EMPTY : PError := "channel empty"

/-- Message of the tokio oneshot TryRecvError.Closed value. -/
def TRY_RECV_CLOSED : PError := "channel closed"

/-- Message of the tokio time Elapsed error of a fired timeout. -/
def ELAPSED_ERROR : PError := "deadline has elapsed"

/-- Request variants of the control channel (src/proxy/src/types.rs).  The oneshot reply
senders embedded in ProxyStatus, CreateProxy and DeleteProxy are left implicit here; the
reply value produced by the actor for a request is returned by processRequest below.
The Bool of deleteProxy records whether the optional reply sender is present. -/
inductive Request where
  | proxyStatus (port : Int)
  | createProxy (host : String) (port : Int) (remoteAddr : String)
  | deleteProxy (port : Int) (hasResponse : Bool)
  | terminate
deriving Repr, DecidableEq

/-- The data a Proxy entry of the registry carries (src/proxy/src/proxy.rs): the
arguments its listener task was started with.  The task handle itself is modelled
separately by listenerTask below. -/
structure Proxy where
  host : String
  port : Int
  remoteAddr : String
deriving Repr, DecidableEq

/-- HashMap.contains_key on the association-list model. -/
def contains_key {α : Type} (m : List (Int × α)) (k : Int) : Bool :=
  m.any (fun kv => kv.1 == k)

/-- HashMap.remove on the association-list model. -/
def map_remove {α : Type} (m : List (Int × α)) (k : Int) : List (Int × α) :=
  m.filter (fun kv => !(kv.1 == k))

/-- HashMap.insert on the association-list model (replaces any previous binding). -/
def map_insert {α : Type} (m : List (Int × α)) (k : Int) (v : α) : List (Int × α) :=
  (k, v) :: map_remove m k

/-- The keys of the map, in iteration order. -/
def map_keys {α : Type} (m : List (Int × α)) : List Int :=
  m.map Prod.fst

/-- The local state of the daemon task of ProxyManager.new: the port-to-Proxy map, the
port-to-watcher-handle map (handles carry no data, modelled as Unit) and the
terminating flag. -/
structure DaemonState where
  proxy_map : List (Int × Proxy)
  watcher_map : List (Int × Unit)
  terminating : Bool
deriving Repr, DecidableEq

/-- The state the daemon starts from: empty maps, not terminating. -/
def initialState : DaemonState :=
  { proxy_map := [], watcher_map := [], terminating := false }

instance : DecidableEq Response := fun a b =>
  match a, b with
  | Except.ok (), Except.ok () => isTrue rfl
  | Except.ok (), Except.error _ => isFalse (fun h => Except.noConfusion h)
  | Except.error _, Except.ok () => isFalse (fun h => Except.noConfusion h)
  | Except.error e, Except.error f =>
      match decEq e f with
      | isTrue h => isTrue (h ▸ rfl)
      | isFalse h => isFalse (fun hh => h (by cases hh; rfl))

/-- The visible effects of one iteration of the receive loop: the new state, the value
sent on the oneshot reply sender of the request (none when nothing is sent on it), the
requests the handler itself posts back onto the queue, whether it closes the receive
side, and any values it sends on the readiness watch channel. -/
structure StepOut where
  state : DaemonState
  reply : Option Response := none
  posted : List Request := []
  closesQueue : Bool := false
  readyWrites : List Bool := []
deriving Repr, DecidableEq

/-- One iteration of the receive loop of the daemon task in ProxyManager.new
(src/proxy/src/manager.rs, the match on the received event).

Faithfulness notes, traceable to the source:
- ProxyStatus replies Ok when the port is a key of proxy_map, else Err(PROXY_NOT_READY).
- CreateProxy under terminating replies Err(MANAGER_TERMINATING) and continues the loop.
  When the port is already a key it replies Err(PROXY_ALREADY_STARTED).  Otherwise it
  inserts the new Proxy into proxy_map and the spawned watcher handle into watcher_map,
  and the arm ends WITHOUT sending anything on response_channel: the success reply is
  absent in the source, so the reply sender is dropped unsent (reply := none here).
- DeleteProxy removes the port from both maps (aborting the watcher handle) and sends
  Ok on the reply sender when one is present.
- Terminate sets terminating, posts DeleteProxy(port, None) for every key of proxy_map
  back onto its own queue, and closes the receive side.
No arm sends on the readiness watch channel, hence readyWrites is empty in every arm. -/
def processRequest (s : DaemonState) (req : Request) : StepOut :=
  match req with
  | Request.proxyStatus port =>
      if contains_key s.proxy_map port then
        { state := s, reply := some (Except.ok ()) }
      else
        { state := s, reply := some (Except.error PROXY_NOT_READY) }
  | Request.createProxy host port remoteAddr =>
      if s.terminating then
        { state := s, reply := some (Except.error MANAGER_TERMINATING) }
      else if contains_key s.proxy_map port then
        { state := s, reply := some (Except.error PROXY_ALREADY_STARTED) }
      else
        { state :=
            { s with
              proxy_map :=
                map_insert s.proxy_map port
                  { host := host, port := port, remoteAddr := remoteAddr },
              watcher_map := map_insert s.watcher_map port () },
          reply := none }
  | Request.deleteProxy port hasResponse =>
      { state :=
          { s with
            proxy_map := map_remove s.proxy_map port,
            watcher_map := map_remove s.watcher_map port },
        reply := if hasResponse then some (Except.ok ()) else none }
  | Request.terminate =>
      { state := { s with terminating := true },
        posted := (map_keys s.proxy_map).map (fun p => Request.deleteProxy p false),
        closesQueue := true }

/-- The daemon state after the receive loop has processed the given requests in order. -/
def processAll (s : DaemonState) : List Request → DaemonState
  | [] => s
  | r :: rs => processAll (processRequest s r).state rs

/-- The values sent on the readiness watch channel while the loop processes the given
requests, concatenated in order. -/
def processAllWrites (s : DaemonState) : List Request → List Bool
  | [] => []
  | r :: rs => (processRequest s r).readyWrites ++ processAllWrites (processRequest s r).state rs

/-- The successive values held by the readiness watch cell over the lifetime of the
daemon task of ProxyManager.new that processes the given requests: the initial value
false of watch.channel(false), the send of true right before the receive loop, every
value the loop body sends, and the send of false after the loop exits. -/
def readinessTrace (reqs : List Request) : List Bool :=
  false :: true :: (processAllWrites initialState reqs ++ [false])

/-- What a single non-blocking try_recv call observes on a oneshot reply receiver. -/
inductive RecvPoll where
  | delivered (r : Response)
  | pending
  | dropped
deriving Repr, DecidableEq

/-- ProxyManager.wait_for_response: tokio.time.timeout(REQUEST_TIMEOUT, an async block
whose body is the single non-blocking call receiver.try_recv()).  The body completes
immediately, so the deadline can never fire and the outcome is exactly the outcome of
the one try_recv: the reply when it had already been sent, the Empty error when the
sender was still alive with nothing sent, the Closed error when the sender had been
dropped without sending.  Both question-mark operators funnel into the error side. -/
def wait_for_response (poll : RecvPoll) : Except PError Response :=
  match poll with
  | RecvPoll.delivered r => Except.ok r
  | RecvPoll.pending => Except.error TRY_RECV_EMPTY
  | RecvPoll.dropped => Except.error TRY_RECV_CLOSED

/-- The state of the reply oneshot at the single try_recv of wait_for_response, given
when the actor sends the reply (arrivalMs after the request is posted; none when it
never sends one while keeping the sender alive) and when the handle polls
(pollDelayMs after posting). -/
def reply_poll_state (arrivalMs : Option Nat) (pollDelayMs : Nat) (r : Response) : RecvPoll :=
  match arrivalMs with
  | some t => if t ≤ pollDelayMs then RecvPoll.delivered r else RecvPoll.pending
  | none => RecvPoll.pending

/-- What the handle observes on the reply oneshot of a request it just posted, when it
polls after the actor has finished processing that request (polledAfterActor true) or
before (false).  When the actor finished without sending on the reply sender, the
sender has been dropped and the poll observes Closed. -/
def handle_poll (out : StepOut) (polledAfterActor : Bool) : RecvPoll :=
  if polledAfterActor then
    match out.reply with
    | some r => RecvPoll.delivered r
    | none => RecvPoll.dropped
  else RecvPoll.pending

/-- Outcome of a handle method that may panic through an unwrap call. -/
inductive HandleOutcome (α : Type) where
  | value (a : α)
  | panicked (msg : PError)
deriving Repr, DecidableEq

/-- ProxyManager.proxy_ready: send_request posts ProxyStatus(port) and unwraps the send,
panicking with REQUEST_ERROR when the request queue is closed; then the single
wait_for_response poll; the result is true exactly on Ok(Ok(())), anything else gives
false.  queueOpen tells whether the mpsc send succeeds; polledAfterActor tells whether
the actor had processed the request when the handle polled its reply. -/
def proxy_ready (s : DaemonState) (port : Int) (queueOpen : Bool)
    (polledAfterActor : Bool) : HandleOutcome Bool :=
  if queueOpen then
    let out := processRequest s (Request.proxyStatus port)
    match wait_for_response (handle_poll out polledAfterActor) with
    | Except.ok (Except.ok _) => HandleOutcome.value true
    | _ => HandleOutcome.value false
  else HandleOutcome.panicked REQUEST_ERROR

/-- ProxyManager.create_proxy (with an open request queue): posts CreateProxy with a
fresh reply oneshot and runs wait_for_response on it.  The question-mark on
wait_for_response propagates poll errors without any cleanup call; a delivered Ok reply
returns Ok; a delivered Err reply first runs the best-effort delete_proxy(port),
discarding its result, and then returns that error.  The returned state is the daemon
state after it has processed the posted requests. -/
def create_proxy (s : DaemonState) (host : String) (port : Int) (remoteAddr : String)
    (polledAfterActor : Bool) : DaemonState × Except PError Unit :=
  let out := processRequest s (Request.createProxy host port remoteAddr)
  match wait_for_response (handle_poll out polledAfterActor) with
  | Except.error e => (out.state, Except.error e)
  | Except.ok (Except.ok _) => (out.state, Except.ok ())
  | Except.ok (Except.error e) =>
      let del := processRequest out.state (Request.deleteProxy port true)
      (del.state, Except.error e)

/-- ProxyManager.delete_proxy (with an open request queue): posts DeleteProxy(port, Some
reply) and runs wait_for_response; both the poll error and the reply error propagate
through the two question-mark operators. -/
def delete_proxy (s : DaemonState) (port : Int)
    (polledAfterActor : Bool) : DaemonState × Except PError Unit :=
  let out := processRequest s (Request.deleteProxy port true)
  match wait_for_response (handle_poll out polledAfterActor) with
  | Except.error e => (out.state, Except.error e)
  | Except.ok (Except.ok _) => (out.state, Except.ok ())
  | Except.ok (Except.error e) => (out.state, Except.error e)

/-- Observable outcome of the listener task body of Proxy.new (src/proxy/src/proxy.rs):
which value, if any, it sends on close_channel, and its return value.  The bind outcome
of TcpListener.bind is a parameter; the accept loop and the per-connection relays are
abstracted away (the loop runs until accept fails, then the task reaches the send).
When bind fails, the question-mark operator returns the error at once: the send of
port on close_channel further down is skipped, and the sender is dropped unsent. -/
structure ListenerOutcome where
  closeSent : Option Int
  result : Except PError Unit
deriving Repr, DecidableEq

/-- The listener task body of Proxy.new, as a function of the bind outcome. -/
def listenerTask (bindResult : Except PError Unit) (port : Int) : ListenerOutcome :=
  match bindResult with
  | Except.error e => { closeSent := none, result := Except.error e }
  | Except.ok _ => { closeSent := some port, result := Except.ok () }

/-- The value the close oneshot holds at the single try_recv of the watcher task,
given the outcome of the listener and whether the listener had already finished when
the watcher polled. -/
def closeAtPoll (outcome : ListenerOutcome) (listenerFinishedFirst : Bool) : Option Int :=
  if listenerFinishedFirst then outcome.closeSent else none

/-- The watcher task spawned by the CreateProxy arm: one non-blocking try_recv on the
close channel at its scheduling time; on Ok(port) it posts DeleteProxy(port, None) back
onto the request queue, otherwise it exits posting nothing.  It never polls again. -/
def watcherTask (availableAtPoll : Option Int) : Option Request :=
  match availableAtPoll with
  | some port => some (Request.deleteProxy port false)
  | none => none

/-- A processed request inserts port p when p is absent from the proxy map before the
step and present after it. -/
def insertsPort (s : DaemonState) (r : Request) (p : Int) : Bool :=
  !(contains_key s.proxy_map p) && contains_key (processRequest s r).state.proxy_map p

/-- No request of the list, processed in order from s, inserts port p. -/
def avoidsInsert (s : DaemonState) (p : Int) : List Request → Bool
  | [] => true
  | r :: rs => !(insertsPort s r p) && avoidsInsert (processRequest s r).state p rs

/-- An OS bind refusal, as surfaced by TcpListener.bind. -/
def BIND_REFUSED : PError := "address already in use"

/-- The daemon state right after a Terminate request is processed from the start state. -/
def terminatedState : DaemonState := (processRequest initialState Request.terminate).state

/-- Scenario: first create_proxy on port 1 against a fresh manager, with the reply
oneshot polled after the actor has processed the request. -/
def firstCreate : DaemonState × Except PError Unit :=
  create_proxy initialState ("127.0.0.1") 1 ("example.com:80") true

/-- Scenario: second create_proxy on the same port 1, issued after the first, with the
reply oneshot polled after the actor has processed the request. -/
def secondCreate : DaemonState × Except PError Unit :=
  create_proxy firstCreate.1 ("0.0.0.0") 1 ("other.example:9") true

theorem contains_key_eq_true_iff {α : Type} (m : List (Int × α)) (k : Int) :
    contains_key m k = true ↔ k ∈ map_keys m := by
  simp [contains_key, map_keys, List.any_eq_true, List.mem_map, beq_iff_eq]

theorem mem_keys_map_remove {α : Type} (m : List (Int × α)) (k j : Int) :
    j ∈ map_keys (map_remove m k) ↔ (j ∈ map_keys m ∧ j ≠ k) := by
  simp only [map_keys, map_remove, List.mem_map, List.mem_filter, Bool.not_eq_eq_eq_not,
    Bool.not_true, beq_eq_false_iff_ne]
  constructor
  · rintro ⟨kv, ⟨hmem, hne⟩, hfst⟩
    exact ⟨⟨kv, hmem, hfst⟩, hfst ▸ hne⟩
  · rintro ⟨⟨kv, hmem, hfst⟩, hne⟩
    exact ⟨kv, ⟨hmem, hfst ▸ hne⟩, hfst⟩

theorem mem_keys_map_insert {α : Type} (m : List (Int × α)) (k j : Int) (v : α) :
    j ∈ map_keys (map_insert m k v) ↔ (j = k ∨ j ∈ map_keys m) := by
  simp only [map_insert, map_keys, List.map_cons, List.mem_cons]
  rw [show (List.map Prod.fst (map_remove m k) : List Int) = map_keys (map_remove m k) from rfl]
  constructor
  · rintro (h | h)
    · exact Or.inl h
    · exact Or.inr ((mem_keys_map_remove m k j).mp h).1
  · rintro (h | h)
    · exact Or.inl h
    · by_cases hk : j = k
      · exact Or.inl hk
      · exact Or.inr ((mem_keys_map_remove m k j).mpr ⟨h, hk⟩)

theorem map_remove_of_not_contains {α : Type} (m : List (Int × α)) (k : Int)
    (h : contains_key m k = false) : map_remove m k = m := by
  unfold contains_key at h
  rw [List.any_eq_false] at h
  unfold map_remove
  rw [List.filter_eq_self]
  intro a ha
  simpa using h a ha

theorem contains_key_map_remove_self {α : Type} (m : List (Int × α)) (k : Int) :
    contains_key (map_remove m k) k = false := by
  rw [Bool.eq_false_iff]
  intro h
  exact ((mem_keys_map_remove m k k).mp ((contains_key_eq_true_iff _ k).mp h)).2 rfl

theorem step_preserves_terminating (s : DaemonState) (r : Request)
    (h : s.terminating = true) : (processRequest s r).state.terminating = true := by
  cases r with
  | proxyStatus q =>
      simp only [processRequest]
      split <;> exact h
  | createProxy host q ra => simp [processRequest, h]
  | deleteProxy q hr => exact h
  | terminate => rfl

theorem step_no_new_key_of_terminating (s : DaemonState) (r : Request) (p : Int)
    (hterm : s.terminating = true)
    (hc : contains_key (processRequest s r).state.proxy_map p = true) :
    contains_key s.proxy_map p = true := by
  cases r with
  | proxyStatus q =>
      revert hc
      simp only [processRequest]
      split <;> exact id
  | createProxy host q ra =>
      revert hc
      simp only [processRequest, hterm, if_true]
      exact id
  | deleteProxy q hr =>
      simp only [processRequest] at hc
      rw [contains_key_eq_true_iff] at hc ⊢
      exact ((mem_keys_map_remove _ q p).mp hc).1
  | terminate =>
      simpa only [processRequest] using hc

theorem processAll_no_new_key_of_terminating (s : DaemonState) (reqs : List Request)
    (p : Int) (hterm : s.terminating = true)
    (hc : contains_key (processAll s reqs).proxy_map p = true) :
    contains_key s.proxy_map p = true := by
  induction reqs generalizing s with
  | nil => simpa [processAll] using hc
  | cons r rs ih =>
      simp only [processAll] at hc
      exact step_no_new_key_of_terminating s r p hterm
        (ih _ (step_preserves_terminating s r hterm) hc)

theorem processAll_preserves_terminating (s : DaemonState) (reqs : List Request)
    (hterm : s.terminating = true) : (processAll s reqs).terminating = true := by
  induction reqs generalizing s with
  | nil => simpa [processAll] using hterm
  | cons r rs ih => exact ih _ (step_preserves_terminating s r hterm)

theorem bool_eq_of_iff {a b : Bool} (h : a = true ↔ b = true) : a = b := by
  cases a <;> cases b <;> simp_all

theorem contains_key_map_remove_ne {α : Type} (m : List (Int × α)) (k j : Int)
    (hj : j ≠ k) : contains_key (map_remove m k) j = contains_key m j := by
  refine bool_eq_of_iff ?_
  rw [contains_key_eq_true_iff, contains_key_eq_true_iff, mem_keys_map_remove]
  exact ⟨fun h => h.1, fun h => ⟨h, hj⟩⟩

theorem contains_key_map_insert_self {α : Type} (m : List (Int × α)) (k : Int) (v : α) :
    contains_key (map_insert m k v) k = true := by
  simp [map_insert, contains_key, List.any_cons]

theorem contains_key_map_insert_ne {α : Type} (m : List (Int × α)) (k j : Int) (v : α)
    (hj : j ≠ k) : contains_key (map_insert m k v) j = contains_key m j := by
  refine bool_eq_of_iff ?_
  rw [contains_key_eq_true_iff, contains_key_eq_true_iff, mem_keys_map_insert]
  constructor
  · rintro (h | h)
    · exact absurd h hj
    · exact h
  · exact fun h => Or.inr h

theorem step_keys_agree (s : DaemonState) (r : Request)
    (h : ∀ q, contains_key s.proxy_map q = contains_key s.watcher_map q) :
    ∀ q, contains_key (processRequest s r).state.proxy_map q
      = contains_key (processRequest s r).state.watcher_map q := by
  intro q
  cases r with
  | proxyStatus j =>
      simp only [processRequest]
      split <;> exact h q
  | createProxy host j ra =>
      by_cases ht : s.terminating = true
      · simp only [processRequest, ht, if_true]
        exact h q
      · by_cases hc : contains_key s.proxy_map j = true
        · simp [processRequest, ht, hc]
          exact h q
        · simp [processRequest, ht, hc]
          by_cases hq : q = j
          · subst hq
            rw [contains_key_map_insert_self, contains_key_map_insert_self]
          · rw [contains_key_map_insert_ne _ _ _ _ hq, contains_key_map_insert_ne _ _ _ _ hq]
            exact h q
  | deleteProxy j hr =>
      show contains_key (map_remove s.proxy_map j) q = contains_key (map_remove s.watcher_map j) q
      by_cases hq : q = j
      · subst hq
        rw [contains_key_map_remove_self, contains_key_map_remove_self]
      · rw [contains_key_map_remove_ne _ _ _ hq, contains_key_map_remove_ne _ _ _ hq]
        exact h q
  | terminate => exact h q

theorem not_contains_after_step_of_avoids (s : DaemonState) (r : Request) (p : Int)
    (h : contains_key s.proxy_map p = false) (hav : insertsPort s r p = false) :
    contains_key (processRequest s r).state.proxy_map p = false := by
  unfold insertsPort at hav
  rw [h] at hav
  simpa using hav

theorem not_contains_processAll (s : DaemonState) (p : Int) (reqs : List Request)
    (h0 : contains_key s.proxy_map p = false) (hav : avoidsInsert s p reqs = true) :
    contains_key (processAll s reqs).proxy_map p = false := by
  induction reqs generalizing s with
  | nil => simpa [processAll] using h0
  | cons r rs ih =>
      simp only [avoidsInsert, Bool.and_eq_true, Bool.not_eq_true'] at hav
      exact ih _ (not_contains_after_step_of_avoids s r p h0 hav.1) hav.2

theorem create_reply_of_not_contains (s : DaemonState) (host : String) (p : Int)
    (ra : String) (h : contains_key s.proxy_map p = false) :
    (processRequest s (Request.createProxy host p ra)).reply = none
    ∨ (processRequest s (Request.createProxy host p ra)).reply
        = some (Except.error MANAGER_TERMINATING) := by
  by_cases ht : s.terminating = true
  · right
    simp [processRequest, ht]
  · left
    simp [processRequest, ht, h]

theorem step_readyWrites_nil (s : DaemonState) (r : Request) :
    (processRequest s r).readyWrites = [] := by
  cases r with
  | proxyStatus q =>
      simp only [processRequest]
      split <;> rfl
  | createProxy host q ra =>
      simp only [processRequest]
      split
      · rfl
      · split <;> rfl
  | deleteProxy q hr => rfl
  | terminate => rfl

theorem processAllWrites_eq_nil (s : DaemonState) (reqs : List Request) :
    processAllWrites s reqs = [] := by
  induction reqs generalizing s with
  | nil => rfl
  | cons r rs ih => simp [processAllWrites, step_readyWrites_nil, ih]

/-- Claim C1 (divergence evaluated on the model): from a fresh manager, the first
create_proxy on port 1 inserts the entry but returns the channel-closed error, because
the CreateProxy success arm never sends a reply; an immediately following second
create_proxy on port 1 does return the PortInUse error, but the handle then runs its
unconditional best-effort delete, so the original entry is evicted and no longer
registered, contrary to the claim. -/
theorem create_proxy_never_ok_and_cleanup_evicts :
    firstCreate.2 = Except.error TRY_RECV_CLOSED
    ∧ contains_key firstCreate.1.proxy_map 1 = true
    ∧ secondCreate.2 = Except.error PROXY_ALREADY_STARTED
    ∧ contains_key secondCreate.1.proxy_map 1 = false := by
  refine ⟨by decide, by decide, by decide, by decide⟩

/-- Claim C2 (divergence evaluated on the model): when the bind fails, the listener task
of Proxy.new terminates with the bind error WITHOUT sending the port on close_sender
(the question-mark operator returns before the send); the port is sent only on the
path where the bind succeeded and the accept loop ended. -/
theorem bind_failure_close_not_sent :
    (listenerTask (Except.error BIND_REFUSED) 18085).closeSent = none
    ∧ (listenerTask (Except.error BIND_REFUSED) 18085).result = Except.error BIND_REFUSED
    ∧ (listenerTask (Except.ok ()) 18085).closeSent = some 18085 := by
  refine ⟨rfl, rfl, rfl⟩

/-- Claim C3 (divergence evaluated on the model): a reply that arrives 1000 ms after the
request is posted is within the 5-second deadline, yet wait_for_response, whose single
non-blocking try_recv runs immediately, fails with the channel-empty error instead of
returning the reply; that error is not the timeout (Elapsed) error. -/
theorem reply_poll_misses_inflight_reply :
    1000 ≤ REQUEST_TIMEOUT_MS
    ∧ wait_for_response (reply_poll_state (some 1000) 0 (Except.ok ()))
        = Except.error TRY_RECV_EMPTY
    ∧ (TRY_RECV_EMPTY == ELAPSED_ERROR) = false := by
  refine ⟨by decide, rfl, by decide⟩

/-- Claim C4 (divergence evaluated on the model): after create_proxy on a port whose
bind the OS refuses, the watcher task observes nothing on the close channel under
either scheduling of its single poll (the listener never sends on bind failure), so no
self-delete is ever posted to the registry; the entry stays in the proxy map and
ProxyStatus keeps answering Ok, so proxy_ready never observes false. -/
theorem bind_failure_entry_never_evicted :
    watcherTask (closeAtPoll (listenerTask (Except.error BIND_REFUSED) 18085) true) = none
    ∧ watcherTask (closeAtPoll (listenerTask (Except.error BIND_REFUSED) 18085) false) = none
    ∧ contains_key (processRequest initialState
        (Request.createProxy ("127.0.0.1") 18085 ("example.com:80"))).state.proxy_map 18085
        = true
    ∧ (processRequest (processRequest initialState
        (Request.createProxy ("127.0.0.1") 18085 ("example.com:80"))).state
        (Request.proxyStatus 18085)).reply = some (Except.ok ()) := by
  refine ⟨rfl, rfl, by decide, by decide⟩

/-- Claim C5 counterexample: proxy_ready does not map every channel error to false -
when the request queue is closed, the unwrap in send_request panics with REQUEST_ERROR;
and with port 1 registered but the reply not yet delivered at the single poll,
proxy_ready returns false even though the entry is registered. -/
theorem proxy_ready_panics_on_closed_queue :
    proxy_ready initialState 1 false true = HandleOutcome.panicked REQUEST_ERROR
    ∧ contains_key firstCreate.1.proxy_map 1 = true
    ∧ proxy_ready firstCreate.1 1 true false = HandleOutcome.value false := by
  refine ⟨rfl, by decide, by decide⟩

/-- Claim C5 as amended: with an open request queue, proxy_ready returns true exactly
when the reply had been delivered at the single poll and the port is registered; every
reply-channel error maps to the return value false; but when the request queue is
closed the handle panics with REQUEST_ERROR instead of returning false. -/
theorem proxy_ready_characterization (s : DaemonState) (p : Int) (b : Bool) :
    proxy_ready s p true b = HandleOutcome.value (b && contains_key s.proxy_map p)
    ∧ proxy_ready s p false b = HandleOutcome.panicked REQUEST_ERROR := by
  constructor
  · cases b with
    | false => rfl
    | true =>
        rcases Bool.eq_false_or_eq_true (contains_key s.proxy_map p) with hc | hc <;>
          simp [proxy_ready, processRequest, hc, handle_poll, wait_for_response]
  · rfl

theorem proxy_ready_characterization_witness :
    proxy_ready initialState 7 true true
        = HandleOutcome.value (true && contains_key initialState.proxy_map 7)
    ∧ proxy_ready initialState 7 false true = HandleOutcome.panicked REQUEST_ERROR :=
  proxy_ready_characterization initialState 7 true

/-- Claim C6: once the terminating flag is set, it stays set and no later processed
request ever makes a port key present in the proxy map that was not already present;
and a CreateProxy processed while terminating is answered Err(MANAGER_TERMINATING). -/
theorem terminating_blocks_inserts (s : DaemonState) (reqs : List Request) (p : Int)
    (host ra : String) (h : s.terminating = true) :
    (processAll s reqs).terminating = true
    ∧ (contains_key (processAll s reqs).proxy_map p = true
        → contains_key s.proxy_map p = true)
    ∧ (processRequest s (Request.createProxy host p ra)).reply
        = some (Except.error MANAGER_TERMINATING) := by
  refine ⟨processAll_preserves_terminating s reqs h,
    fun hc => processAll_no_new_key_of_terminating s reqs p h hc, ?_⟩
  simp [processRequest, h]

theorem terminating_blocks_inserts_witness :
    (processAll terminatedState [Request.createProxy ("h") 2 ("r")]).terminating = true
    ∧ (contains_key (processAll terminatedState
          [Request.createProxy ("h") 2 ("r")]).proxy_map 2 = true
        → contains_key terminatedState.proxy_map 2 = true)
    ∧ (processRequest terminatedState (Request.createProxy ("h") 2 ("r"))).reply
        = some (Except.error MANAGER_TERMINATING) :=
  terminating_blocks_inserts terminatedState [Request.createProxy ("h") 2 ("r")] 2
    ("h") ("r") (by decide)

/-- Claim C7: delete_proxy, with its reply observed, returns Ok for every port and
every state - whether or not an entry for the port exists; the proxy map afterwards is
the map with the port removed, and when no entry existed it is unchanged. -/
theorem delete_proxy_idempotent (s : DaemonState) (p : Int) :
    (delete_proxy s p true).2 = Except.ok ()
    ∧ (delete_proxy s p true).1.proxy_map = map_remove s.proxy_map p
    ∧ (contains_key s.proxy_map p = false
        → (delete_proxy s p true).1.proxy_map = s.proxy_map) := by
  refine ⟨rfl, rfl, fun h => ?_⟩
  show map_remove s.proxy_map p = s.proxy_map
  exact map_remove_of_not_contains s.proxy_map p h

theorem delete_proxy_idempotent_witness :
    (delete_proxy initialState 5 true).2 = Except.ok ()
    ∧ (delete_proxy initialState 5 true).1.proxy_map = map_remove initialState.proxy_map 5
    ∧ (contains_key initialState.proxy_map 5 = false
        → (delete_proxy initialState 5 true).1.proxy_map = initialState.proxy_map) :=
  delete_proxy_idempotent initialState 5

/-- Claim C8: a DeleteProxy with a reply sender is acknowledged Ok, and after it is
processed, a later CreateProxy for the same port - with no intervening processed
request that inserts that port - is never answered with the PortInUse error. -/
theorem create_after_delete_not_port_in_use (s : DaemonState) (p : Int)
    (reqs : List Request) (host ra : String)
    (hav : avoidsInsert (processRequest s (Request.deleteProxy p true)).state p reqs = true) :
    (processRequest s (Request.deleteProxy p true)).reply = some (Except.ok ())
    ∧ ((processRequest (processAll (processRequest s (Request.deleteProxy p true)).state reqs)
          (Request.createProxy host p ra)).reply
        == some (Except.error PROXY_ALREADY_STARTED)) = false := by
  constructor
  · rfl
  · have h0 : contains_key
        (processRequest s (Request.deleteProxy p true)).state.proxy_map p = false :=
      contains_key_map_remove_self s.proxy_map p
    have h1 := not_contains_processAll _ p reqs h0 hav
    rcases create_reply_of_not_contains _ host p ra h1 with h | h <;> rw [h] <;> decide

theorem create_after_delete_not_port_in_use_witness :
    (processRequest initialState (Request.deleteProxy 7 true)).reply = some (Except.ok ())
    ∧ ((processRequest (processAll
          (processRequest initialState (Request.deleteProxy 7 true)).state
          [Request.createProxy ("a") 8 ("b"), Request.proxyStatus 7])
          (Request.createProxy ("h") 7 ("r"))).reply
        == some (Except.error PROXY_ALREADY_STARTED)) = false :=
  create_after_delete_not_port_in_use initialState 7
    [Request.createProxy ("a") 8 ("b"), Request.proxyStatus 7] ("h") ("r") (by decide)

/-- Claim C9: over the whole lifetime of the daemon task, for any sequence of processed
requests, the readiness watch cell takes exactly the values false (initial), true (on
entering the receive loop) and false (after the loop exits): the loop body never writes
to it, so it never oscillates and never turns false while the loop runs. -/
theorem readiness_trace_monotone (reqs : List Request) :
    readinessTrace reqs = [false, true, false] := by
  simp [readinessTrace, processAllWrites_eq_nil]

theorem readiness_trace_monotone_witness :
    readinessTrace [Request.terminate] = [false, true, false] :=
  readiness_trace_monotone [Request.terminate]

/-- Claim C10: after any sequence of requests processed from the initial state - that
is, at every point between iterations of the receive loop - the proxy map and the
watcher map hold exactly the same port keys. -/
theorem proxy_watcher_keys_agree (reqs : List Request) (p : Int) :
    contains_key (processAll initialState reqs).proxy_map p
      = contains_key (processAll initialState reqs).watcher_map p := by
  have main : ∀ rs : List Request, ∀ s : DaemonState,
      (∀ q, contains_key s.proxy_map q = contains_key s.watcher_map q) →
      ∀ q, contains_key (processAll s rs).proxy_map q
        = contains_key (processAll s rs).watcher_map q := by
    intro rs
    induction rs with
    | nil => intro s h q; simpa [processAll] using h q
    | cons r rs ih => intro s h q; exact ih _ (step_keys_agree s r h) q
  exact main reqs initialState (fun q => rfl) p

theorem proxy_watcher_keys_agree_witness :
    contains_key (processAll initialState
        [Request.createProxy ("h") 3 ("r"), Request.deleteProxy 3 false]).proxy_map 3
      = contains_key (processAll initialState
        [Request.createProxy ("h") 3 ("r"), Request.deleteProxy 3 false]).watcher_map 3 :=
  proxy_watcher_keys_agree [Request.createProxy ("h") 3 ("r"), Request.deleteProxy 3 false] 3

end Porter
